import Mathlib

set_option maxRecDepth 100000

/-!
Verification of the TronProtocol YAML Build Configurator
(`yaml-build-config.py`) against its natural-language specification.

The Python program is shallowly embedded: YAML documents become the
inductive type `Yaml`, the methods of `BuildConfigurator` become pure
Lean functions, Python exceptions become `Except String`, and the
file-system footprint of `update_build_gradle` becomes an explicit
state record `FS`.  All definitions are executable.
-/

/-- A YAML value as produced by `yaml.safe_load`.  Mapping keys are
arbitrary YAML values (YAML permits non-string keys, and the dialect-B
variant extraction genuinely produces a `None` key when a variant has
no name).  Floating-point scalars are not modelled; no claim involves
them. -/
inductive Yaml where
  | null
  | bool (b : Bool)
  | int (n : Int)
  | str (s : String)
  | list (xs : List Yaml)
  | map (kvs : List (Yaml × Yaml))

/-- Python `type(x).__name__` for the modelled YAML values. -/
def pyTypeName : Yaml → String
  | .null => "NoneType"
  | .bool _ => "bool"
  | .int _ => "int"
  | .str _ => "str"
  | .list _ => "list"
  | .map _ => "dict"

/-- Python truthiness (`bool(x)`) for the modelled YAML values. -/
def Yaml.truthy : Yaml → Bool
  | .null => false
  | .bool b => b
  | .int n => decide (n ≠ 0)
  | .str s => decide (s ≠ "")
  | .list xs => !xs.isEmpty
  | .map kvs => !kvs.isEmpty

/-- Python `str(x)` for scalar YAML values.  Container stringification
(`str` of a list/dict, which Python renders via `repr` of the elements)
is abbreviated: no claim exercises it, every value interpolated into the
generated manifest by the claims is a scalar. -/
def pyStr : Yaml → String
  | .null => "None"
  | .bool true => "True"
  | .bool false => "False"
  | .int n => toString n
  | .str s => s
  | .list _ => "<list>"
  | .map _ => "<dict>"

/-- Python `==` between a YAML value and a string literal (used for
dictionary lookups with string keys and for `build_type == 'release'`).
A non-string value is never `==` to a string. -/
def pyEqStr (y : Yaml) (s : String) : Bool :=
  match y with
  | .str t => decide (t = s)
  | _ => false

/-- Python `==` between two hashable (scalar) YAML values, as used by
dictionary key lookup/insertion.  `True == 1` and `False == 0` hold in
Python because `bool` is an `int` subtype.  Containers are unhashable
and are rejected before any comparison, so they compare unequal here. -/
def pyKeyEq : Yaml → Yaml → Bool
  | .null, .null => true
  | .bool a, .bool b => decide (a = b)
  | .bool a, .int n => decide ((if a then (1 : Int) else 0) = n)
  | .int n, .bool a => decide (n = (if a then (1 : Int) else 0))
  | .int m, .int n => decide (m = n)
  | .str a, .str b => decide (a = b)
  | _, _ => false

/-- `d.get(k, default)` on a Python dict with (possibly non-string) keys,
looked up with a string key. -/
def mapGetD (kvs : List (Yaml × Yaml)) (k : String) (d : Yaml) : Yaml :=
  match kvs.find? (fun p => pyEqStr p.1 k) with
  | some p => p.2
  | none => d

/-- The loaded top-level configuration document, assumed to be a YAML
mapping (both recognised dialects are mappings; the claims quantify over
mapping documents). -/
abbrev RawConfig := List (Yaml × Yaml)

/-- `self.config.get(k, default)` on the top-level document. -/
def cfgGetD (config : RawConfig) (k : String) (d : Yaml) : Yaml :=
  mapGetD config k d

/-- `y.get(k, default)` where `y` must be a dict; any other value raises
`AttributeError` in Python, modelled as an error. -/
def yamlGetD (y : Yaml) (k : String) (d : Yaml) : Except String Yaml :=
  match y with
  | .map kvs => .ok (mapGetD kvs k d)
  | _ => .error "AttributeError: value has no attribute get"

/-- Prepend a character to the first group of a split result
(helper for `splitOnColon`). -/
def consHead (c : Char) : List (List Char) → List (List Char)
  | [] => [[c]]
  | g :: gs => (c :: g) :: gs

/-- Python `s.split(':')` at the character-list level: splits on every
colon, keeping empty groups, with `[] ↦ [[]]`. -/
def splitOnColon : List Char → List (List Char)
  | [] => [[]]
  | c :: cs =>
    if c = ':' then [] :: splitOnColon cs
    else consHead c (splitOnColon cs)

/-- Python `s.split(':')`. -/
def pySplit (s : String) : List String :=
  (splitOnColon s.toList).map String.mk

/-- Whitespace characters stripped by Python `str.strip()` (ASCII
whitespace; the exotic Unicode spaces Python also strips are not
modelled, no claim uses them). -/
def isPySpace (c : Char) : Bool :=
  c = ' ' || c = '\t' || c = '\n' || c = '\r' || c = '\x0b' || c = '\x0c'

/-- Python `s.strip()`. -/
def pyStrip (s : String) : String :=
  String.mk (((s.toList.dropWhile isPySpace).reverse.dropWhile isPySpace).reverse)

/-- Error-propagating map, as performed by a Python list comprehension
or accumulation loop: the first exception aborts the whole run. -/
def mapExcept (f : α → Except String β) : List α → Except String (List β)
  | [] => .ok []
  | a :: as => do
    let b ← f a
    let bs ← mapExcept f as
    .ok (b :: bs)

/-- `BuildConfigurator._parse_name_version` (lines 111-128): parse a
dialect-B `name:version` shorthand entry with validation. -/
def parse_name_version (entry : Yaml) (source : String) : Except String (String × String) :=
  match entry with
  | .str e =>
    match pySplit e with
    | [p1, p2] =>
      let name := pyStrip p1
      let version := pyStrip p2
      if name = "" ∨ version = "" then
        .error ("Malformed dependency in " ++ source ++ ": '" ++ e ++
          "' (name and version must be non-empty)")
      else
        .ok (name, version)
    | _ =>
      .error ("Malformed dependency in " ++ source ++ ": '" ++ e ++
        "' (expected 'name:version')")
  | other =>
    .error ("Malformed dependency in " ++ source ++ ": expected string, got " ++
      pyTypeName other)

/-- `BuildConfigurator._validate_dependency_coordinate` (lines 130-141):
validate a dialect-A `group:artifact:version` coordinate and return it
unchanged. -/
def validate_dependency_coordinate (dep : Yaml) : Except String String :=
  match dep with
  | .str d =>
    let parts := pySplit d
    if parts.length ≠ 3 ∨ parts.any (fun p => pyStrip p = "") then
      .error ("Malformed dependency coordinate '" ++ d ++
        "' (expected 'group:artifact:version')")
    else
      .ok d
  | other =>
    .error ("Malformed dependency coordinate: expected string, got " ++
      pyTypeName other)

/-- The `special_cases` exception table of
`BuildConfigurator._convert_androidx_dependency` (lines 146-148). -/
def special_cases : List (String × String) :=
  [("material", "com.google.android.material:material")]

/-- `BuildConfigurator._convert_androidx_dependency` (lines 143-152):
expand a dialect-B androidx shorthand, consulting the exception table
before the default rule. -/
def convert_androidx_dependency (artifact version : String) : String :=
  match special_cases.find? (fun p => p.1 = artifact) with
  | some p => p.2 ++ ":" ++ version
  | none => "androidx." ++ artifact ++ ":" ++ artifact ++ ":" ++ version

/-- The `yaml_format` field: `auto` before detection, then one of the
two recognised dialects (`toolneuron` = dialect A, `cleverferret` =
dialect B). -/
inductive Fmt where
  | auto
  | toolneuron
  | cleverferret
deriving DecidableEq

/-- Key membership `k in config` on the top-level document. -/
def hasKey (config : RawConfig) (k : String) : Bool :=
  config.any (fun p => pyEqStr p.1 k)

/-- The format auto-detection of `BuildConfigurator.load_config`
(lines 32-39). -/
def detect_format (config : RawConfig) (fmt : Fmt) : Except String Fmt :=
  if fmt = .auto then
    if hasKey config "app" && hasKey config "build" then
      .ok .toolneuron
    else if hasKey config "project" && hasKey config "variants" then
      .ok .cleverferret
    else
      .error "Unknown YAML format"
  else
    .ok fmt

/-- One dialect-B dependency group loop of
`BuildConfigurator.get_dependencies`: parse each shorthand entry and
convert it with the group's expansion rule, in declaration order. -/
def resolveGroup (source : String) (conv : String → String → String)
    (entries : List Yaml) : Except String (List String) :=
  mapExcept (fun e => (parse_name_version e source).map (fun p => conv p.1 p.2)) entries

/-- `libraries.get(group, [])` followed by iteration: the value must be
a YAML sequence (Python would iterate other types character- or
key-wise and fail on the subsequent `split`; the model rejects them). -/
def yamlGetSeq (libraries : Yaml) (k : String) : Except String (List Yaml) :=
  match libraries with
  | .map kvs =>
    match mapGetD kvs k (.list []) with
    | .list xs => .ok xs
    | _ => .error ("TypeError: libraries value for " ++ k ++ " is not a sequence")
  | _ => .error "AttributeError: libraries value has no attribute get"

/-- `BuildConfigurator.get_dependencies` (lines 85-109).  Dialect A
validates a flat list of qualified coordinates; dialect B resolves the
`androidx`, `google_services` and `tensorflow` groups, in that fixed
order, each group in declaration order. -/
def get_dependencies (config : RawConfig) (fmt : Fmt) : Except String (List String) :=
  match fmt with
  | .toolneuron =>
    match cfgGetD config "dependencies" (.list []) with
    | .list deps => mapExcept validate_dependency_coordinate deps
    | _ => .error "TypeError: dependencies value is not a sequence"
  | .cleverferret => do
    let libraries := cfgGetD config "libraries" (.map [])
    let axs ← yamlGetSeq libraries "androidx"
    let a ← resolveGroup "libraries.androidx" convert_androidx_dependency axs
    let gss ← yamlGetSeq libraries "google_services"
    let g ← resolveGroup "libraries.google_services"
      (fun n v => "com.google.android.gms:" ++ n ++ ":" ++ v) gss
    let tfs ← yamlGetSeq libraries "tensorflow"
    let t ← resolveGroup "libraries.tensorflow"
      (fun n v => "org.tensorflow:" ++ n ++ ":" ++ v) tfs
    .ok (a ++ g ++ t)
  | .auto => .error "format not resolved"

/-- The normalized app configuration produced by
`BuildConfigurator.get_app_config` (a Python dict with seven fixed
string keys, modelled as a record of the seven values). -/
structure AppConfig where
  name : Yaml
  package : Yaml
  version_code : Yaml
  version_name : Yaml
  compile_sdk : Yaml
  min_sdk : Yaml
  target_sdk : Yaml

/-- `BuildConfigurator.get_app_config` (lines 44-65). -/
def get_app_config (config : RawConfig) (fmt : Fmt) : Except String AppConfig :=
  match fmt with
  | .toolneuron => do
    let app := cfgGetD config "app" (.map [])
    let version := cfgGetD config "version" (.map [])
    let build := cfgGetD config "build" (.map [])
    let name ← yamlGetD app "name" (.str "TronProtocol")
    let package ← yamlGetD app "package" (.str "com.tronprotocol.app")
    let version_code ← yamlGetD version "code" (.int 1)
    let version_name ← yamlGetD version "name" (.str "1.0")
    let compile_sdk ← yamlGetD build "compile_sdk" (.int 34)
    let min_sdk ← yamlGetD build "min_sdk" (.int 24)
    let target_sdk ← yamlGetD build "target_sdk" (.int 34)
    .ok ⟨name, package, version_code, version_name, compile_sdk, min_sdk, target_sdk⟩
  | .cleverferret => do
    let project := cfgGetD config "project" (.map [])
    let versioning := cfgGetD config "versioning" (.map [])
    let android := cfgGetD config "android" (.map [])
    let name ← yamlGetD project "name" (.str "TronProtocol")
    let package ← yamlGetD project "id" (.str "com.tronprotocol.app")
    let version_code ← yamlGetD versioning "version_code" (.int 1)
    let version_name ← yamlGetD versioning "version_name" (.str "1.0")
    let compile_sdk ← yamlGetD android "compileSdk" (.int 34)
    let min_sdk ← yamlGetD android "minSdk" (.int 24)
    let target_sdk ← yamlGetD android "targetSdk" (.int 34)
    .ok ⟨name, package, version_code, version_name, compile_sdk, min_sdk, target_sdk⟩
  | .auto => .error "format not resolved"

/-- In-place dictionary update `d[k] = v`: if an `==`-equal key exists
its value is replaced at its original position (Python keeps the first
inserted key object), otherwise the pair is appended. -/
def assocSet (d : List (Yaml × Yaml)) (k v : Yaml) : List (Yaml × Yaml) :=
  match d with
  | [] => [(k, v)]
  | (k', v') :: rest =>
    if pyKeyEq k' k then (k', v) :: rest
    else (k', v') :: assocSet rest k v

/-- `build_types[variant_name] = {...}`: container keys are unhashable
in Python (`TypeError`); scalar keys update the dict in place. -/
def dictSet (d : List (Yaml × Yaml)) (k v : Yaml) : Except String (List (Yaml × Yaml)) :=
  match k with
  | .list _ => .error "TypeError: unhashable type"
  | .map _ => .error "TypeError: unhashable type"
  | _ => .ok (assocSet d k v)

/-- The per-variant body of the dialect-B loop in
`BuildConfigurator.get_build_types` (lines 73-82): extract the variant
name (`None` when absent) and build the normalized build-type config
dict for it. -/
def mkVariantEntry (variant : Yaml) : Except String (Yaml × Yaml) :=
  match variant with
  | .map vm => do
    let variant_name := mapGetD vm "name" .null
    let variant_config := mapGetD vm "config" (.map [])
    let dbg ← yamlGetD variant_config "debuggable" (.bool false)
    let minify ← yamlGetD variant_config "minifyEnabled" (.bool false)
    let shrink ← yamlGetD variant_config "shrinkResources" (.bool false)
    let output := mapGetD vm "output" (.map [])
    let out ← yamlGetD output "name" (.str ("TronProtocol-" ++ pyStr variant_name))
    let entry : Yaml := .map
      [ (.str "enabled", .bool true)
      , (.str "debuggable", dbg)
      , (.str "minify_enabled", minify)
      , (.str "shrink_resources", shrink)
      , (.str "output_name", out) ]
    .ok (variant_name, entry)
  | _ => .error "AttributeError: variant has no attribute get"

/-- The dialect-B variant accumulation loop of
`BuildConfigurator.get_build_types`. -/
def buildVariants : List Yaml → List (Yaml × Yaml) → Except String (List (Yaml × Yaml))
  | [], bts => .ok bts
  | v :: rest, bts => do
    let ke ← mkVariantEntry v
    let bts' ← dictSet bts ke.1 ke.2
    buildVariants rest bts'

/-- `BuildConfigurator.get_build_types` (lines 67-83).  Dialect A
passes the raw `build_types` value through; dialect B accumulates the
variants into a dict keyed by each variant's name value. -/
def get_build_types (config : RawConfig) (fmt : Fmt) : Except String Yaml :=
  match fmt with
  | .toolneuron => .ok (cfgGetD config "build_types" (.map []))
  | .cleverferret =>
    match cfgGetD config "variants" (.list []) with
    | .list vs => do
      let bts ← buildVariants vs []
      .ok (.map bts)
    | _ => .error "TypeError: variants value is not a sequence"
  | .auto => .error "format not resolved"

/-- Python `s.lower()` (character-wise lowercasing; identical to
`String.toLower` but defined over the character list so that it
evaluates by kernel reduction). -/
def pyLower (s : String) : String :=
  String.mk (s.toList.map Char.toLower)

/-- The `", '{pf}'"` accumulation over an explicit proguard-file list
(lines 223-224). -/
def renderPfList : List Yaml → String
  | [] => ""
  | pf :: rest => ", '" ++ pyStr pf ++ "'" ++ renderPfList rest

/-- The proguard portion of a rendered build-type block (lines 219-230):
a truthy `proguard_files` list emits the default baseline file followed
by every listed file; otherwise a build type named `"release"` emits
the baseline file plus `'proguard-rules.pro'`; otherwise nothing. -/
def btProguard (build_type : Yaml) (config : Yaml) : Except String String := do
  let pf ← yamlGetD config "proguard_files" .null
  if pf.truthy then
    match pf with
    | .list files =>
      .ok ("            proguardFiles getDefaultProguardFile('proguard-android-optimize.txt')"
        ++ renderPfList files ++ "\n")
    | _ => .ok ""
  else if pyEqStr build_type "release" then
    .ok "            proguardFiles getDefaultProguardFile('proguard-android-optimize.txt'), 'proguard-rules.pro'\n"
  else
    .ok ""

/-- One iteration of the build-type rendering loop of
`BuildConfigurator.generate_gradle_config` (lines 210-232): a disabled
type renders nothing; an enabled type renders its block. -/
def renderBuildTypeBlock (build_type : Yaml) (config : Yaml) : Except String String := do
  let enabled ← yamlGetD config "enabled" (.bool true)
  if enabled.truthy then
    let dbg ← yamlGetD config "debuggable" (.bool false)
    let minify ← yamlGetD config "minify_enabled" (.bool false)
    let header := "        " ++ pyStr build_type ++ " \x7b\n            debuggable "
      ++ pyLower (pyStr dbg) ++ "\n            minifyEnabled "
      ++ pyLower (pyStr minify) ++ "\n"
    let shrink ← yamlGetD config "shrink_resources" .null
    let shrinkPart := if shrink.truthy then "            shrinkResources true\n" else ""
    let pg ← btProguard build_type config
    .ok (header ++ shrinkPart ++ pg ++ "        \x7d\n")
  else
    .ok ""

/-- The full build-type loop: blocks are concatenated in dict
(insertion) order. -/
def renderBuildTypesList : List (Yaml × Yaml) → Except String String
  | [] => .ok ""
  | (k, c) :: rest => do
    let b ← renderBuildTypeBlock k c
    let r ← renderBuildTypesList rest
    .ok (b ++ r)

/-- The synthetic default substituted when the build-type mapping is
falsy (line 207): `{'release': {'enabled': True, 'minify_enabled': False}}`. -/
def defaultBuildTypes : Yaml :=
  .map [(.str "release", .map [(.str "enabled", .bool true), (.str "minify_enabled", .bool false)])]

/-- Lines 206-232: substitute the synthetic release entry when the
build-type value is falsy, then iterate `.items()` (which requires a
dict). -/
def renderBuildTypesY (bts : Yaml) : Except String String :=
  let bts := if !bts.truthy then defaultBuildTypes else bts
  match bts with
  | .map kvs => renderBuildTypesList kvs
  | _ => .error "AttributeError: build_types value has no attribute items"

/-- The dependency emission loop (lines 254-256): one
`implementation` line per resolved coordinate, in order. -/
def renderDeps : List String → String
  | [] => ""
  | d :: rest => "    implementation '" ++ d ++ "'\n" ++ renderDeps rest

/-- `BuildConfigurator.generate_gradle_config` (lines 169-265) as a
pure text renderer.  `cfgName` is `self.config_file.name`;
`includeKotlin` is the result of the external source-tree probe
`should_include_kotlin_plugin`, passed in rather than recomputed (the
probe reads the file system, which is outside the model).  The
returned string is the exact text written to the staging file. -/
def generate_gradle_config (cfgName : String) (config : RawConfig) (fmt : Fmt)
    (includeKotlin : Bool) : Except String String := do
  let ac ← get_app_config config fmt
  let btsY ← get_build_types config fmt
  let deps ← get_dependencies config fmt
  let header := "// Auto-generated from " ++ cfgName
    ++ "\n// Do not edit manually - changes will be overwritten\n\nplugins \x7b\n    id 'com.android.application'\n"
    ++ (if includeKotlin then "    id 'org.jetbrains.kotlin.android'\n" else "")
  let androidBlock := "\x7d\n\nandroid \x7b\n    namespace '" ++ pyStr ac.package
    ++ "'\n    compileSdk " ++ pyStr ac.compile_sdk
    ++ "\n\n    defaultConfig \x7b\n        applicationId \"" ++ pyStr ac.package
    ++ "\"\n        minSdk " ++ pyStr ac.min_sdk
    ++ "\n        targetSdk " ++ pyStr ac.target_sdk
    ++ "\n        versionCode " ++ pyStr ac.version_code
    ++ "\n        versionName \"" ++ pyStr ac.version_name
    ++ "\"\n    \x7d\n\n    buildTypes \x7b\n"
  let btBlocks ← renderBuildTypesY btsY
  let tail := "    \x7d\n\n    compileOptions \x7b\n        sourceCompatibility JavaVersion.VERSION_1_8\n        targetCompatibility JavaVersion.VERSION_1_8\n    \x7d\n"
    ++ (if includeKotlin then "\n    kotlinOptions \x7b\n        jvmTarget = '1.8'\n    \x7d\n" else "")
    ++ "\n\ndependencies \x7b\n"
  .ok (header ++ androidBlock ++ btBlocks ++ tail ++ renderDeps deps ++ "\x7d\n")

/-- The file-system footprint touched by `update_build_gradle`:
the contents (when the file exists) of the live manifest
`app/build.gradle`, its sibling backup `app/build.gradle.backup`, and
the staging file `app/build.gradle.generated`. -/
structure FS where
  live : Option String
  backup : Option String
  staged : Option String
deriving DecidableEq

/-- The exit path taken by `update_build_gradle`: the guarded refusal
(carrying the diff it printed) or a completed apply. -/
inductive Outcome where
  | blocked (diff : List String)
  | applied
deriving DecidableEq

/-- `difflib.unified_diff` over the two texts split into lines with
`keepends=True`, as called on lines 277-282.  Splitting with kept line
ends is lossless, so the delta is empty exactly when the two texts are
byte-identical; the concrete hunk lines are produced by the external
`difflib` collaborator and are abstracted as header lines carrying the
two compared texts. -/
def unified_diff (cur gen : String) : List String :=
  if cur = gen then []
  else ["--- app/build.gradle", "+++ app/build.gradle.generated", cur, gen]

/-- Lines 292-305 of `update_build_gradle`: back up the live file when
it exists, copy the staged text over the live path, remove the staged
file. -/
def finishUpdate (gen : String) (fs : FS) : Except String (Outcome × FS) :=
  let fs' := match fs.live with
    | some cur => { fs with backup := some cur }
    | none => fs
  .ok (.applied, { fs' with live := some gen, staged := none })

/-- `BuildConfigurator.update_build_gradle` (lines 267-305): generate
the manifest to the staging file, optionally diff it against the live
file in safe mode, refuse (removing the staged file) on a non-empty
diff without `force`, otherwise back up and overwrite.  Errors raised
during generation propagate before any file mutation. -/
def update_build_gradle (cfgName : String) (config : RawConfig) (fmt : Fmt)
    (includeKotlin : Bool) (safe_update force : Bool) (fs : FS) :
    Except String (Outcome × FS) := do
  let gen ← generate_gradle_config cfgName config fmt includeKotlin
  let fs1 : FS := { fs with staged := some gen }
  match fs1.live with
  | some cur =>
    if safe_update then
      let diff := unified_diff cur gen
      if !diff.isEmpty && !force then
        .ok (.blocked diff, { fs1 with staged := none })
      else
        finishUpdate gen fs1
    else
      finishUpdate gen fs1
  | none => finishUpdate gen fs1

/-! ### Example configurations and auxiliary predicates -/

/-- The dialect-A document of concrete scenario A:
`dependencies: ["com.example:lib:1.0.0"]` and no build types. -/
def cfgScenarioA : RawConfig :=
  [(.str "app", .map []), (.str "build", .map []),
   (.str "dependencies", .list [.str "com.example:lib:1.0.0"])]

/-- The manifest generated from `cfgScenarioA` (used as a pre-existing
live-file content in the update-controller claims). -/
def genScenarioA : String :=
  match generate_gradle_config "config.yaml" cfgScenarioA .toolneuron false with
  | .ok g => g
  | .error _ => ""

/-- The well-formedness condition on a dialect-B shorthand given as a
(name, version) pair: both components are trim-stable, non-empty and
colon-free. -/
def cleanPair (p : String × String) : Prop :=
  pyStrip p.1 = p.1 ∧ pyStrip p.2 = p.2 ∧ p.1 ≠ "" ∧ p.2 ≠ "" ∧
    (∀ c ∈ p.1.toList, c ≠ ':') ∧ (∀ c ∈ p.2.toList, c ≠ ':')

instance : DecidablePred cleanPair := fun p => by
  unfold cleanPair
  infer_instance

/-- The keys of a build-type dict are pairwise distinct under Python
dictionary-key equality. -/
def keysDistinct : List (Yaml × Yaml) → Bool
  | [] => true
  | (k, _) :: rest => rest.all (fun p => !pyKeyEq p.1 k) && keysDistinct rest

/-- The dialect-A document of the implicit whitespace pass-through
claim: a single dependency entry `d` under the `dependencies` key. -/
def cfgPassthrough (d : String) : RawConfig :=
  [(.str "app", .map []), (.str "build", .map []),
   (.str "dependencies", .list [.str d])]

/-! ### General helper lemmas -/

theorem toList_append (a b : String) : (a ++ b).toList = a.toList ++ b.toList := by
  cases a; cases b; rfl

theorem mk_toList (s : String) : String.mk s.toList = s := by
  cases s; rfl

/-! ### C1 -/

/-- C1, counterexample: with the live manifest byte-identical to the
freshly generated one and no pre-existing backup, safe-mode update does
NOT leave the backup slot untouched: it takes the normal apply path,
creating a backup (and rewriting the live file with identical bytes).
The claim's "performs no backup" is false at this input: the backup
goes from absent to present. -/
theorem c1_no_change_counterexample :
    update_build_gradle "config.yaml" cfgScenarioA .toolneuron false true false
      ⟨some genScenarioA, none, none⟩
      = .ok (.applied, ⟨some genScenarioA, some genScenarioA, none⟩)
    ∧ (some genScenarioA : Option String) ≠ none := by
  have hgen : generate_gradle_config "config.yaml" cfgScenarioA .toolneuron false
      = .ok genScenarioA := rfl
  constructor
  · simp [update_build_gradle, hgen, Bind.bind, Except.bind, unified_diff, finishUpdate]
  · simp

/-- C1, amended: when safe-mode update is applied and the freshly
generated manifest is byte-identical to the live manifest, the diff is
empty so the guarded refusal is skipped, and the code proceeds through
the ordinary apply path: it backs up the live file (backup = pre-call
live content), rewrites the live file with the identical bytes (content
unchanged), and removes the staged file.  The outcome is Applied; no
backup-free, overwrite-free "Applied-NoChange" path exists. -/
theorem c1_safe_update_identical (cfgName : String) (config : RawConfig) (fmt : Fmt)
    (includeKotlin : Bool) (fs : FS) (g : String)
    (hgen : generate_gradle_config cfgName config fmt includeKotlin = .ok g)
    (hlive : fs.live = some g) :
    update_build_gradle cfgName config fmt includeKotlin true false fs
      = .ok (.applied, ⟨some g, some g, none⟩) := by
  obtain ⟨l, b, s⟩ := fs
  simp only [FS.live] at hlive
  subst hlive
  simp [update_build_gradle, hgen, Bind.bind, Except.bind, unified_diff, finishUpdate]

/-- C1, witness for the amended theorem. -/
theorem c1_safe_update_identical_witness :
    update_build_gradle "config.yaml" cfgScenarioA .toolneuron false true false
      ⟨some genScenarioA, some "earlier backup", none⟩
      = .ok (.applied, ⟨some genScenarioA, some genScenarioA, none⟩) :=
  c1_safe_update_identical "config.yaml" cfgScenarioA .toolneuron false
    ⟨some genScenarioA, some "earlier backup", none⟩ genScenarioA rfl rfl

/-! ### C2 -/

/-- C2: when the live manifest exists and differs from the freshly
generated text, safe-mode update without force yields the Blocked
outcome carrying the unified diff it surfaced, leaves the live file
byte-identical to its pre-call content, leaves the backup untouched,
and removes the staged temporary file, so no staged artifact remains. -/
theorem c2_safe_update_blocked (cfgName : String) (config : RawConfig) (fmt : Fmt)
    (includeKotlin : Bool) (fs : FS) (cur g : String)
    (hgen : generate_gradle_config cfgName config fmt includeKotlin = .ok g)
    (hlive : fs.live = some cur) (hne : cur ≠ g) :
    update_build_gradle cfgName config fmt includeKotlin true false fs
      = .ok (.blocked (unified_diff cur g), ⟨some cur, fs.backup, none⟩)
    ∧ unified_diff cur g ≠ [] := by
  obtain ⟨l, b, s⟩ := fs
  simp only [FS.live] at hlive
  subst hlive
  constructor
  · simp [update_build_gradle, hgen, Bind.bind, Except.bind, unified_diff, hne, finishUpdate]
  · simp [unified_diff, hne]

/-- C2, witness. -/
theorem c2_safe_update_blocked_witness :
    (update_build_gradle "config.yaml" cfgScenarioA .toolneuron false true false
      ⟨some "apply plugin: stale\n", none, none⟩
      = .ok (.blocked (unified_diff "apply plugin: stale\n" genScenarioA),
             ⟨some "apply plugin: stale\n", none, none⟩)
    ∧ unified_diff "apply plugin: stale\n" genScenarioA ≠ []) :=
  c2_safe_update_blocked "config.yaml" cfgScenarioA .toolneuron false
    ⟨some "apply plugin: stale\n", none, none⟩ "apply plugin: stale\n" genScenarioA
    rfl rfl (by decide)

/-! ### C3 -/

/-- C3: whenever the update operation overwrites an existing live
manifest — on any code path, for every combination of safe mode and
force — a backup exists afterwards whose content equals the live
manifest's content immediately before the overwrite, and the live file
now holds the freshly generated text. -/
theorem c3_backup_invariant (cfgName : String) (config : RawConfig) (fmt : Fmt)
    (includeKotlin safe_update force : Bool) (fs : FS) (cur : String) (fs' : FS)
    (hlive : fs.live = some cur)
    (happlied : update_build_gradle cfgName config fmt includeKotlin safe_update force fs
      = .ok (.applied, fs')) :
    fs'.backup = some cur := by
  obtain ⟨l, b, s⟩ := fs
  simp only [FS.live] at hlive
  subst hlive
  cases hgen : generate_gradle_config cfgName config fmt includeKotlin with
  | error e =>
    simp [update_build_gradle, hgen, Bind.bind, Except.bind] at happlied
  | ok g =>
    simp only [update_build_gradle, hgen, Bind.bind, Except.bind] at happlied
    by_cases hs : safe_update
    · subst hs
      simp only [if_true] at happlied
      by_cases hd : (!(unified_diff cur g).isEmpty && !force) = true
      · rw [if_pos hd] at happlied
        simp at happlied
      · rw [if_neg hd] at happlied
        simp [finishUpdate] at happlied
        subst happlied
        rfl
    · simp only [hs, if_false] at happlied
      simp [finishUpdate] at happlied
      subst happlied
      rfl

/-- C3, witness: a forced overwrite of a differing live file keeps a
backup of the pre-overwrite content. -/
theorem c3_backup_invariant_witness :
    (FS.mk (some genScenarioA) (some "apply plugin: stale\n") none).backup
      = some "apply plugin: stale\n" :=
  c3_backup_invariant "config.yaml" cfgScenarioA .toolneuron false false false
    ⟨some "apply plugin: stale\n", none, none⟩ "apply plugin: stale\n"
    ⟨some genScenarioA, some "apply plugin: stale\n", none⟩ rfl (by rfl)

/-! ### C4 -/

/-- C4, counterexample: for a build type named `"release"` with no
explicit `proguard_files`, the emitted proguard directive is NOT the
default baseline file alone — the code appends `'proguard-rules.pro'`
as an additional file. -/
theorem c4_release_default_counterexample :
    btProguard (.str "release") (.map [])
      = .ok "            proguardFiles getDefaultProguardFile('proguard-android-optimize.txt'), 'proguard-rules.pro'\n"
    ∧ "            proguardFiles getDefaultProguardFile('proguard-android-optimize.txt'), 'proguard-rules.pro'\n"
      ≠ "            proguardFiles getDefaultProguardFile('proguard-android-optimize.txt')\n" := by
  constructor
  · rfl
  · decide

/-- C4, amended: for every rendered build type, if its name is
`"release"` and `proguard_files` is absent or falsy, the block emits
the default baseline file PLUS the additional `'proguard-rules.pro'`
(not the baseline alone); this release default is not applied to any
build type whose name differs from `"release"`; and if
`proguard_files` is a non-empty list, the block emits the default
baseline file followed by every listed file in declaration order. -/
theorem c4_proguard_rendering :
    (∀ kvs : List (Yaml × Yaml), (mapGetD kvs "proguard_files" .null).truthy = false →
      btProguard (.str "release") (.map kvs)
        = .ok "            proguardFiles getDefaultProguardFile('proguard-android-optimize.txt'), 'proguard-rules.pro'\n")
    ∧ (∀ (name : Yaml) (kvs : List (Yaml × Yaml)), pyEqStr name "release" = false →
        (mapGetD kvs "proguard_files" .null).truthy = false →
        btProguard name (.map kvs) = .ok "")
    ∧ (∀ (name : Yaml) (kvs : List (Yaml × Yaml)) (files : List Yaml), files ≠ [] →
        mapGetD kvs "proguard_files" .null = .list files →
        btProguard name (.map kvs)
          = .ok ("            proguardFiles getDefaultProguardFile('proguard-android-optimize.txt')"
              ++ renderPfList files ++ "\n")) := by
  refine ⟨?_, ?_, ?_⟩
  · intro kvs h
    simp [btProguard, yamlGetD, Bind.bind, Except.bind, h, pyEqStr]
  · intro name kvs hname h
    simp [btProguard, yamlGetD, Bind.bind, Except.bind, h, hname]
  · intro name kvs files hne h
    simp [btProguard, yamlGetD, Bind.bind, Except.bind, h, Yaml.truthy, hne]

/-- C4, witness for the amended theorem: a release type with no
proguard files, a debug type with no proguard files, and a type with an
explicit one-element list. -/
theorem c4_proguard_rendering_witness :
    btProguard (.str "release") (.map [])
      = .ok "            proguardFiles getDefaultProguardFile('proguard-android-optimize.txt'), 'proguard-rules.pro'\n"
    ∧ btProguard (.str "debug") (.map []) = .ok ""
    ∧ btProguard (.str "debug")
        (.map [(.str "proguard_files", .list [.str "custom.pro"])])
      = .ok ("            proguardFiles getDefaultProguardFile('proguard-android-optimize.txt')"
          ++ renderPfList [.str "custom.pro"] ++ "\n") :=
  ⟨c4_proguard_rendering.1 [] rfl,
   c4_proguard_rendering.2.1 (.str "debug") [] rfl rfl,
   c4_proguard_rendering.2.2 (.str "debug")
     [(.str "proguard_files", .list [.str "custom.pro"])] [.str "custom.pro"]
     (List.cons_ne_nil _ _) rfl⟩

/-! ### C6 -/

/-- C6: dialect auto-detection checks the marker pairs in order.  A
document with both `"app"` and `"build"` keys is dialect A
(`toolneuron`); otherwise one with both `"project"` and `"variants"`
keys is dialect B (`cleverferret`); otherwise detection fails with the
unrecognised-dialect error.  In particular a document carrying all four
marker keys is classified as dialect A. -/
theorem c6_dialect_detection :
    (∀ config : RawConfig, hasKey config "app" = true → hasKey config "build" = true →
      detect_format config .auto = .ok .toolneuron)
    ∧ (∀ config : RawConfig, (hasKey config "app" && hasKey config "build") = false →
        hasKey config "project" = true → hasKey config "variants" = true →
        detect_format config .auto = .ok .cleverferret)
    ∧ (∀ config : RawConfig, (hasKey config "app" && hasKey config "build") = false →
        (hasKey config "project" && hasKey config "variants") = false →
        detect_format config .auto = .error "Unknown YAML format")
    ∧ detect_format
        [(.str "app", .null), (.str "build", .null),
         (.str "project", .null), (.str "variants", .null)] .auto
      = .ok .toolneuron := by
  refine ⟨?_, ?_, ?_, rfl⟩
  · intro config h1 h2
    simp [detect_format, h1, h2]
  · intro config h1 h2 h3
    simp [detect_format, h1, h2, h3]
  · intro config h1 h2
    simp [detect_format, h1, h2]

/-- C6, witness: a two-marker dialect-A document, a dialect-B document,
and a markerless document. -/
theorem c6_dialect_detection_witness :
    detect_format [(.str "app", .null), (.str "build", .null)] .auto = .ok .toolneuron
    ∧ detect_format [(.str "project", .null), (.str "variants", .list [])] .auto
      = .ok .cleverferret
    ∧ detect_format [(.str "other", .null)] .auto = .error "Unknown YAML format" :=
  ⟨c6_dialect_detection.1 [(.str "app", .null), (.str "build", .null)] rfl rfl,
   c6_dialect_detection.2.1 [(.str "project", .null), (.str "variants", .list [])]
     rfl rfl rfl,
   c6_dialect_detection.2.2.1 [(.str "other", .null)] rfl rfl⟩

/-! ### C8 -/

/-- C8: when the build-type mapping is falsy (empty), the generator
substitutes exactly one synthetic `"release"` entry with minification
disabled, so the build-types section is that single block; and for the
concrete dialect-A scenario (`dependencies: ["com.example:lib:1.0.0"]`,
no build types) the extracted build types are empty, the dependency
list is exactly the one coordinate, the dependencies section is exactly
one implementation line, and the full manifest is emitted as shown. -/
theorem c8_empty_build_types_synthetic_release :
    (∀ bts : Yaml, bts.truthy = false →
      renderBuildTypesY bts
        = .ok "        release \x7b\n            debuggable false\n            minifyEnabled false\n            proguardFiles getDefaultProguardFile('proguard-android-optimize.txt'), 'proguard-rules.pro'\n        \x7d\n")
    ∧ get_build_types cfgScenarioA .toolneuron = .ok (.map [])
    ∧ get_dependencies cfgScenarioA .toolneuron = .ok ["com.example:lib:1.0.0"]
    ∧ renderDeps ["com.example:lib:1.0.0"]
      = "    implementation 'com.example:lib:1.0.0'\n"
    ∧ generate_gradle_config "config.yaml" cfgScenarioA .toolneuron false
      = .ok "// Auto-generated from config.yaml\n// Do not edit manually - changes will be overwritten\n\nplugins \x7b\n    id 'com.android.application'\n\x7d\n\nandroid \x7b\n    namespace 'com.tronprotocol.app'\n    compileSdk 34\n\n    defaultConfig \x7b\n        applicationId \"com.tronprotocol.app\"\n        minSdk 24\n        targetSdk 34\n        versionCode 1\n        versionName \"1.0\"\n    \x7d\n\n    buildTypes \x7b\n        release \x7b\n            debuggable false\n            minifyEnabled false\n            proguardFiles getDefaultProguardFile('proguard-android-optimize.txt'), 'proguard-rules.pro'\n        \x7d\n    \x7d\n\n    compileOptions \x7b\n        sourceCompatibility JavaVersion.VERSION_1_8\n        targetCompatibility JavaVersion.VERSION_1_8\n    \x7d\n\n\ndependencies \x7b\n    implementation 'com.example:lib:1.0.0'\n\x7d\n" := by
  refine ⟨?_, rfl, rfl, rfl, rfl⟩
  intro bts h
  simp [renderBuildTypesY, h]
  rfl

/-- C8, witness: the synthetic release block for an empty build-type
dict. -/
theorem c8_empty_build_types_witness :
    renderBuildTypesY (.map [])
      = .ok "        release \x7b\n            debuggable false\n            minifyEnabled false\n            proguardFiles getDefaultProguardFile('proguard-android-optimize.txt'), 'proguard-rules.pro'\n        \x7d\n" :=
  c8_empty_build_types_synthetic_release.1 (.map []) rfl

/-! ### Splitting lemmas -/

theorem splitOnColon_no_colon (v : List Char) (hv : ∀ c ∈ v, c ≠ ':') :
    splitOnColon v = [v] := by
  induction v with
  | nil => rfl
  | cons c cs ih =>
    have hc : c ≠ ':' := hv c (by simp)
    have hcs := ih (fun x hx => hv x (by simp [hx]))
    simp [splitOnColon, hc, hcs, consHead]

theorem splitOnColon_sep (n v : List Char) (hn : ∀ c ∈ n, c ≠ ':') :
    splitOnColon (n ++ ':' :: v) = n :: splitOnColon v := by
  induction n with
  | nil => simp [splitOnColon]
  | cons c cs ih =>
    have hc : c ≠ ':' := hn c (by simp)
    have hcs := ih (fun x hx => hn x (by simp [hx]))
    simp [splitOnColon, hc, hcs, consHead]

theorem pySplit_pair (n v : String)
    (hn : ∀ c ∈ n.toList, c ≠ ':') (hv : ∀ c ∈ v.toList, c ≠ ':') :
    pySplit (n ++ ":" ++ v) = [n, v] := by
  unfold pySplit
  have h1 : (n ++ ":" ++ v).toList = n.toList ++ ':' :: v.toList := by
    rw [toList_append, toList_append]
    simp
  rw [h1, splitOnColon_sep _ _ hn, splitOnColon_no_colon _ hv]
  simp [mk_toList]

theorem parse_name_version_pair (src n v : String)
    (hsn : pyStrip n = n) (hsv : pyStrip v = v) (hn0 : n ≠ "") (hv0 : v ≠ "")
    (hnc : ∀ c ∈ n.toList, c ≠ ':') (hvc : ∀ c ∈ v.toList, c ≠ ':') :
    parse_name_version (.str (n ++ ":" ++ v)) src = .ok (n, v) := by
  simp [parse_name_version, pySplit_pair n v hnc hvc, hsn, hsv, hn0, hv0]

theorem resolveGroup_pairs (src : String) (conv : String → String → String)
    (pairs : List (String × String)) (h : ∀ p ∈ pairs, cleanPair p) :
    resolveGroup src conv (pairs.map (fun p => .str (p.1 ++ ":" ++ p.2)))
      = .ok (pairs.map (fun p => conv p.1 p.2)) := by
  induction pairs with
  | nil => rfl
  | cons p ps ih =>
    obtain ⟨h1, h2, h3, h4, h5, h6⟩ := h p (by simp)
    have ihh := ih (fun q hq => h q (List.mem_cons_of_mem _ hq))
    simp only [resolveGroup, List.map_cons, mapExcept, Bind.bind, Except.bind,
      parse_name_version_pair src p.1 p.2 h1 h2 h3 h4 h5 h6, Except.map]
    simp only [resolveGroup, Except.map] at ihh
    rw [ihh]

/-! ### C5 -/

/-- C5: for well-formed dialect-B shorthand entries the resolved list is
the concatenation, in the fixed group order androidx, then
google_services, then tensorflow, of each group's entries in
declaration order; androidx shorthands expand through the exception
table first (`material` maps to `com.google.android.material`), the
default rule doubles the name under the `androidx.` prefix,
google_services entries get the `com.google.android.gms` group and
tensorflow entries the `org.tensorflow` group; and the two concrete
scenario-B documents resolve as the spec states. -/
theorem c5_dialect_b_resolution :
    (∀ axs gss tfs : List (String × String),
      (∀ p ∈ axs ++ gss ++ tfs, cleanPair p) →
      get_dependencies
        [(.str "libraries", .map
          [(.str "androidx", .list (axs.map (fun p => .str (p.1 ++ ":" ++ p.2)))),
           (.str "google_services", .list (gss.map (fun p => .str (p.1 ++ ":" ++ p.2)))),
           (.str "tensorflow", .list (tfs.map (fun p => .str (p.1 ++ ":" ++ p.2))))])]
        .cleverferret
      = .ok (axs.map (fun p => convert_androidx_dependency p.1 p.2)
          ++ gss.map (fun p => "com.google.android.gms:" ++ p.1 ++ ":" ++ p.2)
          ++ tfs.map (fun p => "org.tensorflow:" ++ p.1 ++ ":" ++ p.2)))
    ∧ (∀ version, convert_androidx_dependency "material" version
        = "com.google.android.material:material:" ++ version)
    ∧ (∀ artifact version, artifact ≠ "material" →
        convert_androidx_dependency artifact version
          = "androidx." ++ artifact ++ ":" ++ artifact ++ ":" ++ version)
    ∧ get_dependencies
        [(.str "libraries", .map [(.str "androidx", .list [.str "recyclerview:1.3.0"])])]
        .cleverferret
      = .ok ["androidx.recyclerview:recyclerview:1.3.0"]
    ∧ get_dependencies
        [(.str "libraries", .map [(.str "androidx", .list [.str "material:1.9.0"])])]
        .cleverferret
      = .ok ["com.google.android.material:material:1.9.0"] := by
  refine ⟨?_, ?_, ?_, rfl, rfl⟩
  · intro axs gss tfs h
    have hax := resolveGroup_pairs "libraries.androidx" convert_androidx_dependency axs
      (fun q hq => h q (by simp [hq]))
    have hgs := resolveGroup_pairs "libraries.google_services"
      (fun n v => "com.google.android.gms:" ++ n ++ ":" ++ v) gss
      (fun q hq => h q (by simp [hq]))
    have htf := resolveGroup_pairs "libraries.tensorflow"
      (fun n v => "org.tensorflow:" ++ n ++ ":" ++ v) tfs
      (fun q hq => h q (by simp [hq]))
    simp [get_dependencies, cfgGetD, mapGetD, pyEqStr, yamlGetSeq,
      Bind.bind, Except.bind, hax, hgs, htf]
  · intro version
    rfl
  · intro artifact version hne
    simp [convert_androidx_dependency, special_cases, List.find?, Ne.symm hne]

/-- C5, witness: concrete grouped input exercising the universal part,
plus the exception-table rules at concrete arguments. -/
theorem c5_dialect_b_resolution_witness :
    get_dependencies
      [(.str "libraries", .map
        [(.str "androidx", .list
          [.str "recyclerview:1.3.0", .str "material:1.9.0"]),
         (.str "google_services", .list [.str "play-services-base:18.2.0"]),
         (.str "tensorflow", .list [.str "tensorflow-lite:2.13.0"])])]
      .cleverferret
    = .ok ["androidx.recyclerview:recyclerview:1.3.0",
           "com.google.android.material:material:1.9.0",
           "com.google.android.gms:play-services-base:18.2.0",
           "org.tensorflow:tensorflow-lite:2.13.0"]
    ∧ convert_androidx_dependency "material" "1.9.0"
      = "com.google.android.material:material:1.9.0"
    ∧ convert_androidx_dependency "recyclerview" "1.3.0"
      = "androidx.recyclerview:recyclerview:1.3.0" := by
  refine ⟨?_, c5_dialect_b_resolution.2.1 "1.9.0", ?_⟩
  · have := c5_dialect_b_resolution.1
      [("recyclerview", "1.3.0"), ("material", "1.9.0")]
      [("play-services-base", "18.2.0")]
      [("tensorflow-lite", "2.13.0")]
      (by decide)
    simpa using this
  · exact c5_dialect_b_resolution.2.2.1 "recyclerview" "1.3.0" (by decide)

/-! ### C7 -/

/-- C7, counterexample: for a non-string malformed entry the error
message names only the entry's type, not the exact offending entry —
the distinct malformed entries `5` and `7` produce the identical
message, so the message cannot name the exact entry.  (The
dialect-A validator behaves the same way, naming nothing at all for a
non-string entry.) -/
theorem c7_nonstring_message_counterexample :
    parse_name_version (.int 5) "libraries.androidx"
      = parse_name_version (.int 7) "libraries.androidx"
    ∧ parse_name_version (.int 5) "libraries.androidx"
      = .error "Malformed dependency in libraries.androidx: expected string, got int"
    ∧ validate_dependency_coordinate (.int 5)
      = validate_dependency_coordinate (.int 7)
    ∧ validate_dependency_coordinate (.int 5)
      = .error "Malformed dependency coordinate: expected string, got int" := by
  refine ⟨rfl, rfl, rfl, rfl⟩

/-- Error propagation through an accumulation loop: one failing entry
anywhere in the list fails the whole extraction. -/
theorem mapExcept_error {α β : Type} (f : α → Except String β) (l : List α) (e : α)
    (hmem : e ∈ l) (hbad : ∃ m, f e = .error m) :
    ∃ m, mapExcept f l = .error m := by
  obtain ⟨m, hm⟩ := hbad
  induction l with
  | nil => simp at hmem
  | cons d rest ih =>
    cases hd : f d with
    | error m' => exact ⟨m', by simp [mapExcept, Bind.bind, Except.bind, hd]⟩
    | ok b =>
      rcases List.mem_cons.mp hmem with he | he
      · subst he
        rw [hd] at hm
        exact absurd hm (by simp)
      · obtain ⟨m'', hm''⟩ := ih he
        exact ⟨m'', by simp [mapExcept, Bind.bind, Except.bind, hd, hm'']⟩

/-- C7, amended: every malformed dependency entry makes extraction fail
with an error (never silently dropped or coerced).  For string-typed
entries the message quotes the exact offending entry (and, for dialect
B, its source group); for non-string entries the message reports the
source group (dialect B) and the entry's type, not the entry itself.
Errors on individual entries propagate: a malformed entry anywhere in a
dependency list makes the whole extraction fail. -/
theorem c7_malformed_rejected :
    (∀ src e : String, (pySplit e).length ≠ 2 →
      parse_name_version (.str e) src
        = .error ("Malformed dependency in " ++ src ++ ": '" ++ e ++
            "' (expected 'name:version')"))
    ∧ (∀ (src e p1 p2 : String), pySplit e = [p1, p2] →
        (pyStrip p1 = "" ∨ pyStrip p2 = "") →
        parse_name_version (.str e) src
          = .error ("Malformed dependency in " ++ src ++ ": '" ++ e ++
              "' (name and version must be non-empty)"))
    ∧ (∀ (src : String) (y : Yaml), (∀ s, y ≠ .str s) →
        parse_name_version y src
          = .error ("Malformed dependency in " ++ src ++ ": expected string, got " ++
              pyTypeName y))
    ∧ (∀ d : String,
        ((pySplit d).length ≠ 3 ∨ (pySplit d).any (fun p => pyStrip p = "")) →
        validate_dependency_coordinate (.str d)
          = .error ("Malformed dependency coordinate '" ++ d ++
              "' (expected 'group:artifact:version')"))
    ∧ (∀ y : Yaml, (∀ s, y ≠ .str s) →
        validate_dependency_coordinate y
          = .error ("Malformed dependency coordinate: expected string, got " ++
              pyTypeName y))
    ∧ (∀ (deps : List Yaml) (e : Yaml), e ∈ deps →
        (∃ m, validate_dependency_coordinate e = .error m) →
        ∃ m, mapExcept validate_dependency_coordinate deps = .error m)
    ∧ (∀ (entries : List Yaml) (e : Yaml) (src : String)
          (conv : String → String → String), e ∈ entries →
        (∃ m, parse_name_version e src = .error m) →
        ∃ m, resolveGroup src conv entries = .error m) := by
  refine ⟨?_, ?_, ?_, ?_, ?_, ?_, ?_⟩
  · intro src e hlen
    match hsp : pySplit e with
    | [] => simp [parse_name_version, hsp]
    | [p1] => simp [parse_name_version, hsp]
    | [p1, p2] => rw [hsp] at hlen; simp at hlen
    | p1 :: p2 :: p3 :: rest => simp [parse_name_version, hsp]
  · intro src e p1 p2 hsp hempty
    simp [parse_name_version, hsp, hempty]
  · intro src y hy
    match y with
    | .null | .bool _ | .int _ | .list _ | .map _ => rfl
    | .str s => exact absurd rfl (hy s)
  · intro d hbad
    simp only [validate_dependency_coordinate]
    rw [if_pos hbad]
  · intro y hy
    match y with
    | .null | .bool _ | .int _ | .list _ | .map _ => rfl
    | .str s => exact absurd rfl (hy s)
  · intro deps e hmem hbad
    exact mapExcept_error validate_dependency_coordinate deps e hmem hbad
  · intro entries e src conv hmem hbad
    obtain ⟨m, hm⟩ := hbad
    unfold resolveGroup
    exact mapExcept_error _ entries e hmem ⟨m, by simp [Except.map, hm]⟩

/-- C7, witness: each malformation class at a concrete input. -/
theorem c7_malformed_rejected_witness :
    parse_name_version (.str "noversion") "libraries.androidx"
      = .error "Malformed dependency in libraries.androidx: 'noversion' (expected 'name:version')"
    ∧ parse_name_version (.str " :1.0") "libraries.google_services"
      = .error "Malformed dependency in libraries.google_services: ' :1.0' (name and version must be non-empty)"
    ∧ parse_name_version (.list []) "libraries.tensorflow"
      = .error "Malformed dependency in libraries.tensorflow: expected string, got list"
    ∧ validate_dependency_coordinate (.str "just:two")
      = .error "Malformed dependency coordinate 'just:two' (expected 'group:artifact:version')"
    ∧ validate_dependency_coordinate .null
      = .error "Malformed dependency coordinate: expected string, got NoneType"
    ∧ (∃ m, mapExcept validate_dependency_coordinate
        [.str "com.example:lib:1.0.0", .str "bad"] = .error m) :=
  ⟨c7_malformed_rejected.1 "libraries.androidx" "noversion" (by decide),
   c7_malformed_rejected.2.1 "libraries.google_services" " :1.0" " " "1.0" (by decide)
     (Or.inl (by decide)),
   c7_malformed_rejected.2.2.1 "libraries.tensorflow" (.list [])
     (fun s h => Yaml.noConfusion h),
   c7_malformed_rejected.2.2.2.1 "just:two" (Or.inl (by decide)),
   c7_malformed_rejected.2.2.2.2.1 .null (fun s h => Yaml.noConfusion h),
   c7_malformed_rejected.2.2.2.2.2.1 [.str "com.example:lib:1.0.0", .str "bad"]
     (.str "bad") (by simp)
     ⟨"Malformed dependency coordinate 'bad' (expected 'group:artifact:version')", rfl⟩⟩

/-! ### C9 -/

theorem pyKeyEq_symm (a b : Yaml) : pyKeyEq a b = pyKeyEq b a := by
  cases a <;> cases b <;> simp [pyKeyEq] <;> constructor <;> exact fun h => h.symm

theorem assocSet_all_keys (d : List (Yaml × Yaml)) (k v k0 : Yaml)
    (hall : d.all (fun p => !pyKeyEq p.1 k0) = true) (hk : pyKeyEq k k0 = false) :
    (assocSet d k v).all (fun p => !pyKeyEq p.1 k0) = true := by
  induction d with
  | nil => simp [assocSet, hk]
  | cons q rest ih =>
    obtain ⟨k', v'⟩ := q
    simp only [List.all_cons, Bool.and_eq_true] at hall
    by_cases he : pyKeyEq k' k = true
    · simp [assocSet, he, hall.1, hall.2]
    · simp only [assocSet, he]
      rw [if_neg (by simp [he])]
      simp [hall.1, ih hall.2]

theorem keysDistinct_assocSet (d : List (Yaml × Yaml)) (k v : Yaml)
    (h : keysDistinct d = true) : keysDistinct (assocSet d k v) = true := by
  induction d with
  | nil => simp [assocSet, keysDistinct]
  | cons q rest ih =>
    obtain ⟨k', v'⟩ := q
    simp only [keysDistinct, Bool.and_eq_true] at h
    by_cases he : pyKeyEq k' k = true
    · simp [assocSet, he, keysDistinct, h.1, h.2]
    · simp only [assocSet, he]
      rw [if_neg (by simp [he])]
      simp only [keysDistinct, Bool.and_eq_true]
      refine ⟨?_, ih h.2⟩
      have hk : pyKeyEq k k' = false := by
        rw [pyKeyEq_symm]
        exact Bool.not_eq_true _ ▸ (by simpa using he)
      exact assocSet_all_keys rest k v k' h.1 hk

theorem buildVariants_distinct (vs : List Yaml) (acc bts : List (Yaml × Yaml))
    (hacc : keysDistinct acc = true) (h : buildVariants vs acc = .ok bts) :
    keysDistinct bts = true := by
  induction vs generalizing acc with
  | nil =>
    simp only [buildVariants] at h
    cases h
    exact hacc
  | cons v rest ih =>
    simp only [buildVariants, Bind.bind, Except.bind] at h
    cases hmk : mkVariantEntry v with
    | error m => rw [hmk] at h; exact absurd h (by simp)
    | ok ke =>
      rw [hmk] at h
      dsimp only at h
      cases hset : dictSet acc ke.1 ke.2 with
      | error m => rw [hset] at h; exact absurd h (by simp)
      | ok acc' =>
        rw [hset] at h
        have hacc' : keysDistinct acc' = true := by
          obtain ⟨k, e⟩ := ke
          cases k with
          | list xs => simp [dictSet] at hset
          | map kvs => simp [dictSet] at hset
          | null =>
            simp only [dictSet, Except.ok.injEq] at hset
            subst hset
            exact keysDistinct_assocSet acc _ _ hacc
          | bool b =>
            simp only [dictSet, Except.ok.injEq] at hset
            subst hset
            exact keysDistinct_assocSet acc _ _ hacc
          | int n =>
            simp only [dictSet, Except.ok.injEq] at hset
            subst hset
            exact keysDistinct_assocSet acc _ _ hacc
          | str s =>
            simp only [dictSet, Except.ok.injEq] at hset
            subst hset
            exact keysDistinct_assocSet acc _ _ hacc
        dsimp only at h
        exact ih acc' hacc' h

/-- C9, counterexample: dialect-B variant extraction violates the
claimed key invariant at concrete inputs.  A variant with no `name`
yields a build-type key of Python type `NoneType` (not a non-empty
string), and two variants sharing the name `"v"` silently collapse
into a single entry. -/
theorem c9_variant_keys_counterexample :
    (get_build_types
      [(.str "project", .map []),
       (.str "variants", .list [.map [(.str "config", .map [])]])]
      .cleverferret).map (fun y =>
        match y with
        | .map kvs => kvs.map (fun p => pyTypeName p.1)
        | _ => [])
      = .ok ["NoneType"]
    ∧ (get_build_types
        [(.str "project", .map []),
         (.str "variants", .list
           [.map [(.str "name", .str "v"),
                  (.str "config", .map [(.str "debuggable", .bool true)])],
            .map [(.str "name", .str "v"),
                  (.str "config", .map [])]])]
        .cleverferret).map (fun y =>
          match y with
          | .map kvs => kvs.length
          | _ => 0)
      = .ok 1 := by
  constructor
  · rfl
  · rfl

/-- C9, amended: dialect-B extraction keys the build-type mapping by
each variant's raw `name` value: the keys are unique as dictionary keys
(pairwise distinct under Python key equality, later same-named variants
overwriting the earlier entry in place), but they need not be non-empty
strings — a variant lacking a name contributes a `None` key, and two
variants sharing a name collapse into one entry. -/
theorem c9_build_type_keys (config : RawConfig) (bts : List (Yaml × Yaml))
    (h : get_build_types config .cleverferret = .ok (.map bts)) :
    keysDistinct bts = true := by
  simp only [get_build_types] at h
  cases hv : cfgGetD config "variants" (.list []) with
  | list vs =>
    rw [hv] at h
    simp only [Bind.bind, Except.bind] at h
    cases hb : buildVariants vs [] with
    | error m => rw [hb] at h; exact absurd h (by simp)
    | ok bts' =>
      rw [hb] at h
      dsimp only at h
      simp only [Except.ok.injEq, Yaml.map.injEq] at h
      subst h
      exact buildVariants_distinct vs [] _ rfl hb
  | null => rw [hv] at h; exact absurd h (by simp)
  | bool b => rw [hv] at h; exact absurd h (by simp)
  | int n => rw [hv] at h; exact absurd h (by simp)
  | str s => rw [hv] at h; exact absurd h (by simp)
  | map kvs => rw [hv] at h; exact absurd h (by simp)

/-- C9, witness for the amended theorem: the two-variant collapse input
yields a dict with pairwise-distinct keys. -/
theorem c9_build_type_keys_witness :
    keysDistinct [(.str "v", .map
      [ (.str "enabled", .bool true)
      , (.str "debuggable", .bool false)
      , (.str "minify_enabled", .bool false)
      , (.str "shrink_resources", .bool false)
      , (.str "output_name", .str "TronProtocol-v") ])] = true :=
  c9_build_type_keys
    [(.str "project", .map []),
     (.str "variants", .list
       [.map [(.str "name", .str "v"),
              (.str "config", .map [(.str "debuggable", .bool true)])],
        .map [(.str "name", .str "v"),
              (.str "config", .map [])]])]
    [(.str "v", .map
      [ (.str "enabled", .bool true)
      , (.str "debuggable", .bool false)
      , (.str "minify_enabled", .bool false)
      , (.str "shrink_resources", .bool false)
      , (.str "output_name", .str "TronProtocol-v") ])]
    (by rfl)


/-! ### C10 -/

theorem sapp_empty (a : String) : a ++ "" = a := by
  apply String.ext
  simp [String.data_append]

/-- C10: on the dialect-A pass-through path, a dependency string whose
three colon-separated segments are non-empty after stripping (for
example one padded with whitespace around the separators) is accepted
by the validator and returned completely unchanged — stripping is used
only for the emptiness check — so `get_dependencies` yields the
coordinate verbatim and the generated manifest contains the
implementation line with the coordinate verbatim, whitespace
included. -/
theorem c10_whitespace_passthrough (d : String)
    (hlen : (pySplit d).length = 3)
    (hne : ∀ p ∈ pySplit d, pyStrip p ≠ "") :
    validate_dependency_coordinate (.str d) = .ok d
    ∧ get_dependencies (cfgPassthrough d) .toolneuron = .ok [d]
    ∧ ∃ pre post : String,
        generate_gradle_config "config.yaml" (cfgPassthrough d) .toolneuron false
          = .ok (pre ++ ("    implementation '" ++ d ++ "'\n") ++ post) := by
  have hany : (pySplit d).any (fun p => decide (pyStrip p = "")) = false := by
    rw [List.any_eq_false]
    intro p hp
    simp [hne p hp]
  have hval : validate_dependency_coordinate (.str d) = .ok d := by
    simp [validate_dependency_coordinate, hlen, hany]
  have hdeps : get_dependencies (cfgPassthrough d) .toolneuron = .ok [d] := by
    simp [get_dependencies, cfgPassthrough, cfgGetD, mapGetD, pyEqStr, List.find?,
      mapExcept, Bind.bind, Except.bind, hval]
  have hdeps2 : get_dependencies
      [(Yaml.str "app", Yaml.map []), (Yaml.str "build", Yaml.map []),
       (Yaml.str "dependencies", Yaml.list [Yaml.str d])] .toolneuron = .ok [d] := by
    simpa [cfgPassthrough] using hdeps
  refine ⟨hval, hdeps, ?_⟩
  refine ⟨"// Auto-generated from config.yaml\n// Do not edit manually - changes will be overwritten\n\nplugins \x7b\n    id 'com.android.application'\n\x7d\n\nandroid \x7b\n    namespace 'com.tronprotocol.app'\n    compileSdk 34\n\n    defaultConfig \x7b\n        applicationId \"com.tronprotocol.app\"\n        minSdk 24\n        targetSdk 34\n        versionCode 1\n        versionName \"1.0\"\n    \x7d\n\n    buildTypes \x7b\n        release \x7b\n            debuggable false\n            minifyEnabled false\n            proguardFiles getDefaultProguardFile('proguard-android-optimize.txt'), 'proguard-rules.pro'\n        \x7d\n    \x7d\n\n    compileOptions \x7b\n        sourceCompatibility JavaVersion.VERSION_1_8\n        targetCompatibility JavaVersion.VERSION_1_8\n    \x7d\n\n\ndependencies \x7b\n", "\x7d\n", ?_⟩
  simp [generate_gradle_config, get_app_config, get_build_types, cfgPassthrough,
    cfgGetD, mapGetD, pyEqStr, List.find?, yamlGetD, Bind.bind, Except.bind,
    hdeps2, renderDeps, renderBuildTypesY, Yaml.truthy, defaultBuildTypes,
    renderBuildTypesList, renderBuildTypeBlock, btProguard, renderPfList,
    pyLower, pyStr, sapp_empty]
  rfl

/-- C10, witness: the whitespace-padded coordinate
`"com.example : lib : 1.0"` passes validation and is emitted
verbatim. -/
theorem c10_whitespace_passthrough_witness :
    validate_dependency_coordinate (.str "com.example : lib : 1.0")
      = .ok "com.example : lib : 1.0"
    ∧ get_dependencies (cfgPassthrough "com.example : lib : 1.0") .toolneuron
      = .ok ["com.example : lib : 1.0"]
    ∧ ∃ pre post : String,
        generate_gradle_config "config.yaml"
          (cfgPassthrough "com.example : lib : 1.0") .toolneuron false
          = .ok (pre ++ ("    implementation '" ++ "com.example : lib : 1.0" ++ "'\n") ++ post) :=
  c10_whitespace_passthrough "com.example : lib : 1.0" (by decide) (by decide)
